import Mathlib

/-!
Verification of the SmmControl2Dxe driver
(src/Platforms/QemuQ35Pkg/SmmControl2Dxe/SmmControl2Dxe.c).

The driver exposes the EFI_SMM_CONTROL2_PROTOCOL (Trigger / Clear) and has an
entry point that configures the ICH9 SMI enable register, locks it down,
verifies the lock took effect, negotiates SMI features and publishes the
protocol.  We embed the C functions as pure Lean functions: hardware and
collaborator interactions are captured by an explicit `Backend` record of the
values the environment returns, and the functions produce, besides their
EFI_STATUS result, the trace of hardware register writes they perform.
-/

namespace SmmControl2

/-! ## Platform constants

The register offsets and bit masks come from the platform header
Q35MchIch9.h, which is included by the C file but not part of the source
tree; the values below are the standard ICH9 ones the spec's data model
describes (a "master enable" bit and a "trigger-on-write enable" bit in the
SMI enable register, an APM control and an APM status/scratch port). -/

/-- Modelled from the spec: IO port of the APM control register
(`ICH9_APM_CNT`), the write to which asserts the SMI.  The header defining
it is not in the source tree. -/
def ICH9_APM_CNT : Nat := 0xB2

/-- Modelled from the spec: IO port of the APM status / scratchpad data
register (`ICH9_APM_STS`).  The header defining it is not in the source
tree. -/
def ICH9_APM_STS : Nat := 0xB3

/-- Modelled from the spec: the "trigger-on-write enable" bit
(`ICH9_SMI_EN_APMC_EN`, bit 5) of the SMI enable register. -/
def ICH9_SMI_EN_APMC_EN : Nat := 0x20

/-- Modelled from the spec: the "master enable" bit
(`ICH9_SMI_EN_GBL_SMI_EN`, bit 0) of the SMI enable register. -/
def ICH9_SMI_EN_GBL_SMI_EN : Nat := 0x1

/-- Modelled from the spec: mask of the valid bits of the PM base address
(`ICH9_PMBASE_MASK`, bits 7..15). -/
def ICH9_PMBASE_MASK : Nat := 0xFF80

/-- Modelled from the spec: offset of the SMI enable register from the PM
base (`ICH9_PMBASE_OFS_SMI_EN`). -/
def ICH9_PMBASE_OFS_SMI_EN : Nat := 0x30

/-- Modelled from the spec: PCI config offset of the GEN_PMCON_1 register
holding the SMI lock bit. -/
def ICH9_GEN_PMCON_1 : Nat := 0xA0

/-- Modelled from the spec: the SMI_LOCK bit of GEN_PMCON_1 (bit 4),
sealing the SMI configuration until platform reset. -/
def ICH9_GEN_PMCON_1_SMI_LOCK : Nat := 0x10

/-- Mask of a 32-bit register value; `~(UINT32)x` in C is `UINT32_MASK ^^^ x`
for `x < 2^32`. -/
def UINT32_MASK : Nat := 0xFFFFFFFF

/-- Modelled from the spec: `MAX_UINTN`, the maximum representable integer
of the native word (64-bit UINTN), used as the "infinite/unsupported"
sentinel for the minimum trigger period.  Defined in MdePkg, not in the
source tree. -/
def MAX_UINTN : Nat := 2 ^ 64 - 1

/-! ## EFI status codes

The concrete EFI_STATUS values are those of the UEFI specification
(MdePkg, not in the source tree): error codes have the high bit of the
64-bit word set. -/

/-- Modelled from the spec: `EFI_SUCCESS` (0). -/
def EFI_SUCCESS : Nat := 0

/-- Modelled from the spec: `EFI_DEVICE_ERROR` (error code 7,
high bit set). -/
def EFI_DEVICE_ERROR : Nat := 2 ^ 63 + 7

/-- Modelled from the spec: `EFI_INVALID_PARAMETER` (error code 2,
high bit set). -/
def EFI_INVALID_PARAMETER : Nat := 2 ^ 63 + 2

/-- Modelled from the spec: `EFI_UNSUPPORTED` (error code 3,
high bit set). -/
def EFI_UNSUPPORTED : Nat := 2 ^ 63 + 3

/-- Modelled from the spec: the `EFI_ERROR` predicate — true when the high
bit (bit 63) of the status word is set. -/
def EFI_ERROR (s : Nat) : Bool := s.testBit 63

/-! ## The Trigger and Clear operations

`SmmControl2DxeTrigger` and `SmmControl2DxeClear` are embedded as pure
functions from their inputs to the pair (EFI_STATUS result, list of 8-bit IO
writes performed, in order).  The optional-by-nullable-pointer `CommandPort`
and `DataPort` parameters become `Option Nat`; `IoWrite8` truncates its value
to a byte, recorded as `% 256`. -/

/-- Embedding of `SmmControl2DxeTrigger` (SmmControl2Dxe.c lines 68-97).
Rejects periodic or interval-delayed activation with `EFI_DEVICE_ERROR` and
no write; otherwise writes the data byte (0 if absent) to `ICH9_APM_STS`,
then the command byte (0 if absent) to `ICH9_APM_CNT`, and succeeds. -/
def SmmControl2DxeTrigger (CommandPort DataPort : Option Nat)
    (Periodic : Bool) (ActivationInterval : Nat) : Nat × List (Nat × Nat) :=
  if Periodic || decide (ActivationInterval > 0) then
    (EFI_DEVICE_ERROR, [])
  else
    (EFI_SUCCESS,
      [(ICH9_APM_STS, DataPort.getD 0 % 256),
       (ICH9_APM_CNT, CommandPort.getD 0 % 256)])

/-- Embedding of `SmmControl2DxeClear` (SmmControl2Dxe.c lines 117-141).
Rejects a periodic request with `EFI_INVALID_PARAMETER`; otherwise succeeds
doing nothing (QEMU deasserts the SMI automatically). -/
def SmmControl2DxeClear (Periodic : Bool) : Nat × List (Nat × Nat) :=
  if Periodic then
    (EFI_INVALID_PARAMETER, [])
  else
    (EFI_SUCCESS, [])

/-- Embedding of the `EFI_SMM_CONTROL2_PROTOCOL` structure: the two
operations plus the declared minimum supported trigger period. -/
structure EFI_SMM_CONTROL2_PROTOCOL where
  Trigger : Option Nat → Option Nat → Bool → Nat → Nat × List (Nat × Nat)
  Clear : Bool → Nat × List (Nat × Nat)
  MinimumTriggerPeriod : Nat

/-- Embedding of the static `mControl2` protocol instance
(SmmControl2Dxe.c lines 143-147). -/
def mControl2 : EFI_SMM_CONTROL2_PROTOCOL :=
  { Trigger := SmmControl2DxeTrigger
    Clear := SmmControl2DxeClear
    MinimumTriggerPeriod := MAX_UINTN }

/-! ## The entry point

The entry point's interactions with the environment are the values the
environment hands back: the PCI read of the PM base, the initial IO read of
the SMI enable register, the IO read-back after the probe write, the result
of `NegotiateSmiFeatures`, the status of the protocol installation, and the
`PcdStandaloneMmEnable` feature PCD.  `EntryResult` records the observable
outcome: whether the driver halted fatally (`CpuDeadLoop`), whether the
protocol was published, the ordered 32-bit IO writes and the PCI
read-modify-write operations it performed, how often the negotiation
collaborator was called, and the stored negotiation result. -/

structure Backend where
  pciPmBase : Nat
  initialSmiEn : Nat
  readBack : Nat
  negotiate : Bool
  installStatus : Nat
  standaloneMm : Bool
deriving Repr, DecidableEq

structure EntryResult where
  halted : Bool
  published : Bool
  ioWrites : List (Nat × Nat)
  pciWrites : List (Nat × Nat)
  negotiateCalls : Nat
  negotiated : Option Bool
deriving Repr, DecidableEq

/-- The absolute IO address of the SMI enable register, as the entry point
computes it: the PCI-read PM base masked to its valid bits plus the fixed
SMI_EN offset. -/
def smiEnableAddr (b : Backend) : Nat :=
  (b.pciPmBase &&& ICH9_PMBASE_MASK) + ICH9_PMBASE_OFS_SMI_EN

/-- Embedding of `SmmControl2DxeEntryPoint` (SmmControl2Dxe.c lines
154-265).  Computes the SMI enable register address, reads it, halts if
APMC_EN is pre-set while the strict Standalone-MM variant finds GBL_SMI_EN
clear; otherwise ORs both bits in and writes the register, sets the PCI SMI
lock bit, probe-writes the value with GBL_SMI_EN cleared and halts if the
read-back differs from the configured value; on success negotiates SMI
features once and publishes the protocol, halting if installation fails. -/
def SmmControl2DxeEntryPoint (b : Backend) : EntryResult :=
  let mSmiEnable := smiEnableAddr b
  let SmiEnableVal := b.initialSmiEn
  if (SmiEnableVal &&& ICH9_SMI_EN_APMC_EN != 0) && b.standaloneMm &&
      (SmiEnableVal &&& ICH9_SMI_EN_GBL_SMI_EN == 0) then
    { halted := true, published := false, ioWrites := [], pciWrites := [],
      negotiateCalls := 0, negotiated := none }
  else
    let v := SmiEnableVal ||| (ICH9_SMI_EN_APMC_EN ||| ICH9_SMI_EN_GBL_SMI_EN)
    let probe := v &&& (UINT32_MASK ^^^ ICH9_SMI_EN_GBL_SMI_EN)
    let writes := [(mSmiEnable, v), (mSmiEnable, probe)]
    let pciW := [(ICH9_GEN_PMCON_1, ICH9_GEN_PMCON_1_SMI_LOCK)]
    if b.readBack != v then
      { halted := true, published := false, ioWrites := writes,
        pciWrites := pciW, negotiateCalls := 0, negotiated := none }
    else if EFI_ERROR b.installStatus then
      { halted := true, published := false, ioWrites := writes,
        pciWrites := pciW, negotiateCalls := 1, negotiated := some b.negotiate }
    else
      { halted := false, published := true, ioWrites := writes,
        pciWrites := pciW, negotiateCalls := 1, negotiated := some b.negotiate }

/-- The projection of an `EntryResult` that forgets only the stored
negotiation result: everything the driver does other than recording that
value. -/
def eraseNegotiated (r : EntryResult) :
    Bool × Bool × List (Nat × Nat) × List (Nat × Nat) × Nat :=
  (r.halted, r.published, r.ioWrites, r.pciWrites, r.negotiateCalls)

/-! ## Helper lemmas -/

/-- ORing in bits that are already set is the identity. -/
theorem lor_eq_self_of_and_eq {x y : Nat} (h : x &&& y = y) : x ||| y = x := by
  apply Nat.eq_of_testBit_eq
  intro i
  have hb := congrArg (fun n => n.testBit i) h
  simp only [Nat.testBit_and] at hb
  rw [Nat.testBit_or]
  cases hy : Nat.testBit y i
  · simp
  · rw [hy] at hb
    simp only [Bool.and_true] at hb
    simp [hb]

/-- A number containing two masks bitwise contains their union. -/
theorem and_lor_eq_of_and_eq {x y z : Nat} (hy : x &&& y = y) (hz : x &&& z = z) :
    x &&& (y ||| z) = y ||| z := by
  apply Nat.eq_of_testBit_eq
  intro i
  have hby := congrArg (fun n => n.testBit i) hy
  have hbz := congrArg (fun n => n.testBit i) hz
  simp only [Nat.testBit_and] at hby hbz
  rw [Nat.testBit_and, Nat.testBit_or, ← hby, ← hbz]
  cases Nat.testBit x i <;> simp

/-! ## Claim theorems -/

/-- C1: if, after the lock-down step, the probe write clearing the master
enable bit takes effect — i.e. the re-read of the enable register differs
from the value written in step 4 (the initially read value with both enable
bits ORed in) — then initialization halts fatally and the Trigger/Clear
surface is never published. -/
theorem lock_verification_failure_halts_before_publish (b : Backend)
    (h : b.readBack ≠
      b.initialSmiEn ||| (ICH9_SMI_EN_APMC_EN ||| ICH9_SMI_EN_GBL_SMI_EN)) :
    (SmmControl2DxeEntryPoint b).halted = true ∧
      (SmmControl2DxeEntryPoint b).published = false := by
  unfold SmmControl2DxeEntryPoint
  by_cases h1 : ((b.initialSmiEn &&& ICH9_SMI_EN_APMC_EN != 0) && b.standaloneMm &&
      (b.initialSmiEn &&& ICH9_SMI_EN_GBL_SMI_EN == 0)) = true
  · simp [h1]
  · simp [h1, h]

/-- Witness for C1: a backend whose read-back after the probe write differs
from the configured value halts unpublished. -/
theorem lock_verification_failure_halts_before_publish_witness :
    (SmmControl2DxeEntryPoint ⟨0, 0, 0, false, 0, false⟩).halted = true ∧
      (SmmControl2DxeEntryPoint ⟨0, 0, 0, false, 0, false⟩).published = false :=
  lock_verification_failure_halts_before_publish ⟨0, 0, 0, false, 0, false⟩
    (by decide)

/-- C2: every Trigger call with the periodic flag set, or with a non-zero
activation interval, returns `EFI_DEVICE_ERROR` and performs no hardware
register write. -/
theorem trigger_rejects_periodic_or_interval (cmd data : Option Nat)
    (p : Bool) (i : Nat) (h : p = true ∨ 0 < i) :
    SmmControl2DxeTrigger cmd data p i = (EFI_DEVICE_ERROR, []) := by
  unfold SmmControl2DxeTrigger
  rcases h with h | h <;> simp [h]

/-- Witness for C2: a periodic Trigger request fails with no writes. -/
theorem trigger_rejects_periodic_or_interval_witness :
    SmmControl2DxeTrigger none none true 0 = (EFI_DEVICE_ERROR, []) :=
  trigger_rejects_periodic_or_interval none none true 0 (Or.inl rfl)

/-- C3: every Trigger call with periodic false and interval zero writes the
data byte (zero when absent) to the status/scratch port strictly before
writing the command byte (zero when absent) to the control port, and
returns `EFI_SUCCESS`. -/
theorem trigger_immediate_writes_data_then_command (cmd data : Option Nat) :
    SmmControl2DxeTrigger cmd data false 0 =
      (EFI_SUCCESS,
        [(ICH9_APM_STS, data.getD 0 % 256),
         (ICH9_APM_CNT, cmd.getD 0 % 256)]) := rfl

/-- C4: Clear returns `EFI_INVALID_PARAMETER` when the periodic flag is set
and `EFI_SUCCESS` otherwise, and in every case performs zero hardware
register writes. -/
theorem clear_validates_and_writes_nothing (p : Bool) :
    SmmControl2DxeClear p =
      ((if p then EFI_INVALID_PARAMETER else EFI_SUCCESS), []) := by
  cases p <;> rfl

/-- C5: if the initial read of the enable register has the trigger-on-write
bit (APMC_EN) set while, under the Standalone-MM strict variant, the master
enable bit (GBL_SMI_EN) is clear, initialization halts fatally with no
hardware register write, no negotiation and no publication. -/
theorem strict_variant_inconsistency_halts_without_writes (b : Backend)
    (hmm : b.standaloneMm = true)
    (ha : b.initialSmiEn &&& ICH9_SMI_EN_APMC_EN ≠ 0)
    (hg : b.initialSmiEn &&& ICH9_SMI_EN_GBL_SMI_EN = 0) :
    SmmControl2DxeEntryPoint b =
      { halted := true, published := false, ioWrites := [], pciWrites := [],
        negotiateCalls := 0, negotiated := none } := by
  unfold SmmControl2DxeEntryPoint
  simp [hmm, ha, hg]

/-- Witness for C5: initial value 0x20 (APMC_EN set, GBL_SMI_EN clear)
under the strict variant halts with an empty write trace. -/
theorem strict_variant_inconsistency_halts_without_writes_witness :
    SmmControl2DxeEntryPoint ⟨0, 0x20, 0, false, 0, true⟩ =
      { halted := true, published := false, ioWrites := [], pciWrites := [],
        negotiateCalls := 0, negotiated := none } :=
  strict_variant_inconsistency_halts_without_writes ⟨0, 0x20, 0, false, 0, true⟩
    rfl (by decide) (by decide)

/-- C6: when the initial hardware state already has both the
trigger-on-write bit and the master enable bit set, the enable-register
configuration write (the first IO write) carries exactly the initially read
value — no different bits — and, provided the lock verification read-back
returns that value and installation succeeds, initialization publishes the
surface and calls feature negotiation exactly once.  (The later probe
write of the verification step is the spec's deliberate "false" write, not
a configuration write.) -/
theorem preconfigured_state_init_idempotent (b : Backend)
    (ha : b.initialSmiEn &&& ICH9_SMI_EN_APMC_EN = ICH9_SMI_EN_APMC_EN)
    (hg : b.initialSmiEn &&& ICH9_SMI_EN_GBL_SMI_EN = ICH9_SMI_EN_GBL_SMI_EN)
    (hrb : b.readBack = b.initialSmiEn)
    (hin : EFI_ERROR b.installStatus = false) :
    (SmmControl2DxeEntryPoint b).published = true ∧
      (SmmControl2DxeEntryPoint b).negotiateCalls = 1 ∧
      (SmmControl2DxeEntryPoint b).ioWrites.head? =
        some (smiEnableAddr b, b.initialSmiEn) := by
  have hv : b.initialSmiEn ||| (ICH9_SMI_EN_APMC_EN ||| ICH9_SMI_EN_GBL_SMI_EN) =
      b.initialSmiEn :=
    lor_eq_self_of_and_eq (and_lor_eq_of_and_eq ha hg)
  have hcond : ((b.initialSmiEn &&& ICH9_SMI_EN_APMC_EN != 0) && b.standaloneMm &&
      (b.initialSmiEn &&& ICH9_SMI_EN_GBL_SMI_EN == 0)) = false := by
    have h1 : (b.initialSmiEn &&& ICH9_SMI_EN_GBL_SMI_EN == 0) = false := by
      rw [hg]; decide
    simp [h1]
  simp [SmmControl2DxeEntryPoint, hcond, hv, hrb, hin]

/-- Witness for C6: initial value 0x21 (both bits set), read-back equal,
successful installation: published, one negotiation call, and the first
write repeats 0x21. -/
theorem preconfigured_state_init_idempotent_witness :
    (SmmControl2DxeEntryPoint ⟨0, 0x21, 0x21, true, 0, true⟩).published = true ∧
      (SmmControl2DxeEntryPoint ⟨0, 0x21, 0x21, true, 0, true⟩).negotiateCalls = 1 ∧
      (SmmControl2DxeEntryPoint ⟨0, 0x21, 0x21, true, 0, true⟩).ioWrites.head? =
        some (smiEnableAddr ⟨0, 0x21, 0x21, true, 0, true⟩, 0x21) :=
  preconfigured_state_init_idempotent ⟨0, 0x21, 0x21, true, 0, true⟩
    (by decide) (by decide) rfl (by decide)

/-- C7: feature negotiation is called exactly once whenever initialization
publishes the surface; it is called at all only when the lock-down
verification succeeded (the read-back equals the configured value); and its
boolean result influences nothing the driver does besides being stored —
two runs differing only in the negotiation outcome agree on every other
component of the result. -/
theorem negotiation_once_after_lockdown_and_unused (b : Backend) (x y : Bool) :
    ((SmmControl2DxeEntryPoint b).published = true →
      (SmmControl2DxeEntryPoint b).negotiateCalls = 1) ∧
    ((SmmControl2DxeEntryPoint b).negotiateCalls ≠ 0 →
      b.readBack =
        b.initialSmiEn ||| (ICH9_SMI_EN_APMC_EN ||| ICH9_SMI_EN_GBL_SMI_EN)) ∧
    eraseNegotiated (SmmControl2DxeEntryPoint { b with negotiate := x }) =
      eraseNegotiated (SmmControl2DxeEntryPoint { b with negotiate := y }) := by
  unfold SmmControl2DxeEntryPoint eraseNegotiated
  by_cases h1 : ((b.initialSmiEn &&& ICH9_SMI_EN_APMC_EN != 0) && b.standaloneMm &&
      (b.initialSmiEn &&& ICH9_SMI_EN_GBL_SMI_EN == 0)) = true
  · simp [h1]
  · by_cases h2 : (b.readBack !=
        b.initialSmiEn ||| (ICH9_SMI_EN_APMC_EN ||| ICH9_SMI_EN_GBL_SMI_EN)) = true
    · simp [h1, h2, smiEnableAddr]
    · by_cases h3 : EFI_ERROR b.installStatus = true
      · simp only [bne_iff_ne, ne_eq, not_not] at h2
        simp [h1, h2, h3, smiEnableAddr]
      · simp only [bne_iff_ne, ne_eq, not_not] at h2
        simp [h1, h2, h3, smiEnableAddr]

/-- Witness for C7: a successful run makes exactly one negotiation call,
and flipping the negotiation outcome changes nothing else. -/
theorem negotiation_once_after_lockdown_and_unused_witness :
    (SmmControl2DxeEntryPoint ⟨0, 0, 0x21, true, 0, true⟩).negotiateCalls = 1 ∧
    eraseNegotiated
        (SmmControl2DxeEntryPoint
          { (⟨0, 0, 0x21, true, 0, true⟩ : Backend) with negotiate := true }) =
      eraseNegotiated
        (SmmControl2DxeEntryPoint
          { (⟨0, 0, 0x21, true, 0, true⟩ : Backend) with negotiate := false }) :=
  ⟨(negotiation_once_after_lockdown_and_unused ⟨0, 0, 0x21, true, 0, true⟩
      true false).1 (by decide),
   (negotiation_once_after_lockdown_and_unused ⟨0, 0, 0x21, true, 0, true⟩
      true false).2.2⟩

/-- C8: the published control surface declares its minimum supported
trigger period as `MAX_UINTN`, the maximum representable 64-bit integer,
the infinite/unsupported sentinel. -/
theorem minimum_trigger_period_is_max_uintn :
    mControl2.MinimumTriggerPeriod = MAX_UINTN ∧ MAX_UINTN = 2 ^ 64 - 1 :=
  ⟨rfl, rfl⟩

/-- C9: the rejected unsupported mode is reported with different concrete
codes: Trigger returns `EFI_DEVICE_ERROR` for a periodic or
non-zero-interval request while Clear returns `EFI_INVALID_PARAMETER` for a
periodic request, and the two codes are distinct. -/
theorem unsupported_mode_codes_differ :
    (∀ cmd data i, (SmmControl2DxeTrigger cmd data true i).1 = EFI_DEVICE_ERROR ∧
      (SmmControl2DxeTrigger cmd data false (i + 1)).1 = EFI_DEVICE_ERROR) ∧
    (SmmControl2DxeClear true).1 = EFI_INVALID_PARAMETER ∧
    EFI_DEVICE_ERROR ≠ EFI_INVALID_PARAMETER := by
  refine ⟨fun cmd data i => ⟨rfl, ?_⟩, rfl, by decide⟩
  simp [SmmControl2DxeTrigger]

/-- C10: Trigger's returned status depends only on the periodic flag and
the activation interval — never on the command or data bytes or their
presence — and Clear's returned status is a function of the periodic flag
alone. -/
theorem status_depends_only_on_mode :
    (∀ cmd cmd' data data' p i,
      (SmmControl2DxeTrigger cmd data p i).1 =
        (SmmControl2DxeTrigger cmd' data' p i).1) ∧
    (∀ p, (SmmControl2DxeClear p).1 =
      if p then EFI_INVALID_PARAMETER else EFI_SUCCESS) := by
  constructor
  · intro cmd cmd' data data' p i
    by_cases h : (p || decide (i > 0)) = true <;>
      simp [SmmControl2DxeTrigger, h]
  · intro p
    cases p <;> rfl

end SmmControl2
